import Mathlib

/-!
# Verification of the Avatar-Adapter-Management persistence and training core

Shallow embedding of the repository's adapter persistence layer
(`app/classes/AdapterPersistenceManager.py`), the training-flag API handler
(`app/api/training_data.py`), and the training orchestrator
(`app/service/training_service.py`).

Modelling conventions:
* The S3 object store is an association list from object keys to stored
  documents (`Store`).  `put_object`/`upload_file` overwrite the entry at a
  key, `head_object`/`get_object` are lookups, `list_objects_v2` is a filter
  by string prefix and `delete_objects` removes the listed keys.
* A local scratch directory (the adapter "bundle") is an association list
  from relative file paths to file documents (`Bundle`); a zip archive of a
  directory stores its entry list verbatim, so `zipfile` compression details
  are abstracted away while relative paths and contents are preserved.
* JSON documents are modelled structurally (`FileDoc`, `S3Doc`): the adapter
  status document, the LoRA hyperparameter document, the training-flag
  ledger and the backup-metadata document each get a constructor carrying
  the fields the source writes.  Wall-clock timestamps are threaded as
  explicit `String` parameters; floating-point metrics and compressed byte
  sizes have no shallow embedding and are omitted from the documents that
  carry them (noted at each definition).
* Python exceptions are `Except PErr`; `PErr.str` models Python's `str(e)`
  for the handlers that match on `"404" in str(e)`.
-/

/-- Substring test on character lists: some suffix of `l` has `pat` as a
prefix.  Models Python's `pat in s` membership test on strings. -/
def listContainsSub (pat l : List Char) : Bool :=
  (List.range (l.length + 1)).any (fun i => pat.isPrefixOf (l.drop i))

/-- `strContains s pat` models Python's `pat in s` substring test. -/
def strContains (s pat : String) : Bool :=
  listContainsSub pat.data s.data

/-- String prefix test, models the `Prefix=` filter of S3 `list_objects_v2`. -/
def strPrefix (p s : String) : Bool :=
  p.data.isPrefixOf s.data

/-- String suffix test, models Python's `str.endswith`. -/
def strSuffix (suf s : String) : Bool :=
  suf.data.isSuffixOf s.data

/-- ASCII lower-casing, models Python's `str.lower()` as used on filenames. -/
def lowerStr (s : String) : String :=
  ⟨s.data.map Char.toLower⟩

/-- `os.path.basename`: the part of a key after the last `/`. -/
def baseNameAux : List Char → List Char → List Char
  | acc, [] => acc
  | acc, c :: rest =>
    if c = '/' then baseNameAux [] rest else baseNameAux (acc ++ [c]) rest

/-- `os.path.basename` on an object key. -/
def basename (k : String) : String :=
  ⟨baseNameAux [] k.data⟩

/-- Association-list lookup (first binding wins), models both a Python
`dict.get` on a JSON object and an S3 `head_object`/`get_object` by key. -/
def assocGet {α : Type} : List (String × α) → String → Option α
  | [], _ => none
  | kv :: rest, k => if kv.1 = k then some kv.2 else assocGet rest k

/-- Association-list update: replace the binding of `k` in place, or append
a new binding.  Models `dict[k] = v` and an S3 `put_object` overwrite. -/
def assocSet {α : Type} : List (String × α) → String → α → List (String × α)
  | [], k, v => [(k, v)]
  | kv :: rest, k, v =>
    if kv.1 = k then (k, v) :: rest else kv :: assocSet rest k v

theorem assocGet_set_self {α : Type} (l : List (String × α)) (k : String) (v : α) :
    assocGet (assocSet l k v) k = some v := by
  induction l with
  | nil => simp [assocGet, assocSet]
  | cons kv rest ih =>
    by_cases h : kv.1 = k
    · simp [assocSet, assocGet, h]
    · simp [assocSet, assocGet, h, ih]

theorem assocGet_set_ne {α : Type} (l : List (String × α)) (k k' : String) (v : α)
    (h : k ≠ k') : assocGet (assocSet l k v) k' = assocGet l k' := by
  induction l with
  | nil => simp [assocGet, assocSet, h]
  | cons kv rest ih =>
    by_cases hk : kv.1 = k
    · simp [assocSet, assocGet, hk, h]
    · simp only [assocSet, hk, if_false, assocGet]
      by_cases hk' : kv.1 = k'
      · simp [hk']
      · simp [hk', ih]

theorem assocGet_none_not_mem {α : Type} {l : List (String × α)} {k : String}
    (h : assocGet l k = none) : ∀ v : α, (k, v) ∉ l := by
  induction l with
  | nil => intro v hv; simp at hv
  | cons kv rest ih =>
    intro v hv
    by_cases hk : kv.1 = k
    · simp [assocGet, hk] at h
    · rcases List.mem_cons.1 hv with h1 | h1
      · exact hk (by rw [← h1])
      · simp only [assocGet, hk, if_false] at h
        exact ih h v h1

theorem assocGet_eq_some_mem {α : Type} {l : List (String × α)} {k : String} {v : α}
    (h : assocGet l k = some v) : (k, v) ∈ l := by
  induction l with
  | nil => simp [assocGet] at h
  | cons kv rest ih =>
    by_cases hk : kv.1 = k
    · simp only [assocGet, hk, if_true, Option.some.injEq] at h
      exact List.mem_cons.2 (Or.inl (by rcases kv with ⟨a, b⟩; simp_all))
    · simp only [assocGet, hk, if_false] at h
      exact List.mem_cons.2 (Or.inr (ih h))

/-- Appending distinct suffixes to a common prefix yields distinct strings. -/
theorem append_ne_of_ne (p : String) {a b : String} (h : a ≠ b) :
    p ++ a ≠ p ++ b := by
  intro hab
  apply h
  have := congrArg String.data hab
  simp only [String.data_append] at this
  exact String.ext (List.append_cancel_left this)

/-- A string prefix extends through a further append:
if `a ++ b` is a prefix of `k` then so is `a`. -/
theorem strPrefix_of_append (a b k : String)
    (h : strPrefix (a ++ b) k = true) : strPrefix a k = true := by
  simp only [strPrefix, List.isPrefixOf_iff_prefix, String.data_append] at h ⊢
  exact (List.prefix_append a.data b.data).trans h

/-- A string contains its own prefix: `strContains (p ++ r) p = true`. -/
theorem strContains_append_left (p r : String) :
    strContains (p ++ r) p = true := by
  simp only [strContains, listContainsSub, String.data_append, List.any_eq_true]
  refine ⟨0, ?_, ?_⟩
  · simp [List.mem_range]
  · simp [List.isPrefixOf_iff_prefix]

/-! ## Data model -/

deriving instance DecidableEq for Except

/-- A Python exception escaping one of the embedded operations.
`http` is `fastapi.HTTPException(status_code, detail)`; `attr` is the
`AttributeError` raised when an attribute lookup on an
`AdapterPersistenceManager` instance fails; `badZip` is
`zipfile.BadZipFile` from extracting a non-archive object. -/
inductive PErr where
  | http (status : Nat) (detail : String)
  | attr (name : String)
  | badZip
deriving DecidableEq, Repr

/-- Python's `str(e)` for the exceptions above.  Starlette's `HTTPException`
prints as `"{status_code}: {detail}"`; the orchestrator matches on
`"404" in str(e)`, so this rendering is load-bearing. -/
def PErr.str : PErr → String
  | .http code detail => toString code ++ ": " ++ detail
  | .attr name =>
      "'AdapterPersistenceManager' object has no attribute '" ++ name ++ "'"
  | .badZip => "File is not a zip file"

/-- A file inside a local adapter bundle directory, modelled structurally.
* `bytes` — opaque file content (e.g. the empty `adapter_model.bin`
  placeholder, or uploaded blobs).
* `statusDoc` — the adapter status JSON written first by `create_adapter`
  (`adapter_name`, `user_id`, `avatar_id`, `created_at`, `version`,
  `status`, `training_history`).
* `loraDoc` — the LoRA hyperparameter JSON
  (`target_modules`, `r`, `lora_alpha`, `lora_dropout`); the float dropout
  is carried as its decimal literal.
* `trainedConfig` — the result of `_update_adapter_post_training` rewriting
  an existing config document in place (sets `status = "trained"`, appends
  timing/metric fields whose float values are outside the embedding). -/
inductive FileDoc where
  | bytes (s : String)
  | statusDoc (adapter_name user_id avatar_id created_at version status : String)
      (training_history : List String)
  | loraDoc (target_modules : List String) (r lora_alpha : Nat) (lora_dropout : String)
  | trainedConfig (prev : FileDoc) (training_files_used : List String)
deriving DecidableEq, Repr

/-- Whether a bundle file is a JSON document carrying a `status` field. -/
def FileDoc.hasStatusField : FileDoc → Bool
  | .statusDoc _ _ _ _ _ _ _ => true
  | .trainedConfig _ _ => true
  | _ => false

/-- Whether a bundle file is a JSON document carrying a `training_history`
field (only the status document written by `create_adapter` has one). -/
def FileDoc.hasTrainingHistoryField : FileDoc → Bool
  | .statusDoc _ _ _ _ _ _ _ => true
  | _ => false

/-- A local directory (adapter bundle or scratch training directory):
relative file path ↦ file content, in creation order. -/
abbrev Bundle : Type := List (String × FileDoc)

/-- An object stored in S3.
* `file` — a plain object (uploaded training blob, placeholder, …).
* `zipArchive` — a zip of a local directory; entries are the directory's
  relative paths and contents (compression abstracted away).
* `ledgerDoc` — the training-flag ledger `metadata/metadata.json`,
  a JSON object mapping filename ↦ `use_for_training` flag.
* `backupMeta` — `backup_metadata.json` written next to each archive
  (`backup_type`, owner ids, timestamp, `file_count`; the compressed
  `backup_size_bytes` has no embedding and is omitted). -/
inductive S3Doc where
  | file (d : FileDoc)
  | zipArchive (entries : List (String × FileDoc))
  | ledgerDoc (entries : List (String × Bool))
  | backupMeta (backup_type user_id avatar_id backup_timestamp : String)
      (file_count : Nat)
deriving DecidableEq, Repr

/-- The S3 bucket contents: object key ↦ stored object. -/
abbrev Store : Type := List (String × S3Doc)

/-- `head_object`/`get_object` on the bucket. -/
def storeGet (s : Store) (k : String) : Option S3Doc :=
  assocGet s k

/-- `put_object`/`upload_file` on the bucket (overwrites at the key). -/
def storePut (s : Store) (k : String) (v : S3Doc) : Store :=
  assocSet s k v

/-- `list_objects_v2(Prefix=p)`: all stored objects whose key extends `p`. -/
def listPrefix (s : Store) (p : String) : List (String × S3Doc) :=
  s.filter (fun kv => strPrefix p kv.1)

/-- `delete_objects`: drop every entry whose key is listed. -/
def deleteKeys (s : Store) (ks : List String) : Store :=
  s.filter (fun kv => ¬ ks.contains kv.1)

/-! ## AdapterPersistenceManager (classes/AdapterPersistenceManager.py)

The class holds `s3_client`, `settings`, `user_id`, `avatar_id`; the client
and bucket are modelled by threading the `Store` through each operation, so
the structure keeps only the two identity fields. -/

structure AdapterPersistenceManager where
  user_id : String
  avatar_id : String
deriving DecidableEq, Repr

namespace AdapterPersistenceManager

/-- `_get_s3_adapter_path`. -/
def s3AdapterPath (m : AdapterPersistenceManager) : String :=
  "users/" ++ m.user_id ++ "/avatars/" ++ m.avatar_id ++ "/adapters/"

/-- `_get_s3_training_data_path`. -/
def s3TrainingDataPath (m : AdapterPersistenceManager) : String :=
  m.s3AdapterPath ++ "training_data/"

/-- `_get_s3_metadata_path`. -/
def s3MetadataPath (m : AdapterPersistenceManager) : String :=
  m.s3AdapterPath ++ "metadata/"

/-- The fixed backup-archive key `{adapter_path}adapter_backup.zip`. -/
def adapterZipKey (m : AdapterPersistenceManager) : String :=
  m.s3AdapterPath ++ "adapter_backup.zip"

/-- The fixed sibling key `{adapter_path}backup_metadata.json`. -/
def backupMetaKey (m : AdapterPersistenceManager) : String :=
  m.s3AdapterPath ++ "backup_metadata.json"

/-- The fixed ledger key `{metadata_path}metadata.json`. -/
def ledgerKey (m : AdapterPersistenceManager) : String :=
  m.s3MetadataPath ++ "metadata.json"

/-- `backup_adapters_to_s3(local_adapter_path)`: 404 if the local path does
not exist (`localDir = none`); otherwise zip the directory (relative paths and
contents preserved), upload the archive at the fixed key, then upload the
backup-metadata document (`file_count` is the walk's file count; the
compressed byte size is omitted, see `S3Doc.backupMeta`).  Returns the
metadata and the updated bucket. -/
def backup_adapters_to_s3 (m : AdapterPersistenceManager) (now : String)
    (localDir : Option Bundle) (s : Store) : Except PErr (S3Doc × Store) :=
  match localDir with
  | none => .error (.http 404 "Local adapter path not found")
  | some d =>
    let s1 := storePut s m.adapterZipKey (.zipArchive d)
    let meta : S3Doc := .backupMeta "adapters" m.user_id m.avatar_id now d.length
    let s2 := storePut s1 m.backupMetaKey meta
    .ok (meta, s2)

/-- `restore_adapters_from_s3(local_adapter_path)`: `head_object` on the
fixed archive key — absent ⇒ HTTP 404; otherwise download and extract into
the destination directory.  The orchestrator and `get_adapter_info` always
extract into a freshly created scratch directory, so the result is exactly
the archive's entry list; a non-archive object at the key would make
`zipfile` raise (`badZip`). -/
def restore_adapters_from_s3 (m : AdapterPersistenceManager) (s : Store) :
    Except PErr Bundle :=
  match storeGet s m.adapterZipKey with
  | none => .error (.http 404
      ("No adapter backup found for user " ++ m.user_id ++ ", avatar " ++ m.avatar_id))
  | some (.zipArchive entries) => .ok entries
  | some _ => .error .badZip

/-- `adapter_exists()`: head probe on the archive key; any failure counts
as "does not exist" and is never raised. -/
def adapter_exists (m : AdapterPersistenceManager) (s : Store) : Bool :=
  (storeGet s m.adapterZipKey).isSome

/-- The local bundle materialized by `create_adapter` before archiving:
the status document is written to `adapter_config.json` first, then the
placeholder loop writes `adapter_model.bin` (empty bytes) and a LoRA
hyperparameter document to `adapter_config.json` again, overwriting the
status document at the same path. -/
def createAdapterBundle (m : AdapterPersistenceManager)
    (adapter_name created_at : String) : Bundle :=
  let d0 : Bundle := []
  let d1 := assocSet d0 "adapter_config.json"
    (.statusDoc adapter_name m.user_id m.avatar_id created_at "1.0.0" "untrained" [])
  let d2 := assocSet d1 "adapter_model.bin" (.bytes "")
  assocSet d2 "adapter_config.json" (.loraDoc ["q_proj", "v_proj"] 16 32 "0.1")

/-- Result dictionary of `create_adapter`. -/
structure CreateResult where
  status : String
  message : String
  s3_path : String
  metadata : Option S3Doc
deriving DecidableEq, Repr

/-- `create_adapter(adapter_name)`: if the adapter already exists, return
`status="existing"` without touching the bucket; otherwise materialize the
fresh bundle in a scratch directory and back it up.  Any exception is
wrapped into HTTP 500 `"Failed to create adapter: …"` by the handler at the
bottom of the method. -/
def create_adapter (m : AdapterPersistenceManager)
    (adapter_name created_at : String) (s : Store) :
    Except PErr (CreateResult × Store) :=
  if m.adapter_exists s then
    .ok ({ status := "existing", message := "Adapter already exists",
           s3_path := m.s3AdapterPath, metadata := none }, s)
  else
    match m.backup_adapters_to_s3 created_at
        (some (m.createAdapterBundle adapter_name created_at)) s with
    | .ok (meta, s') =>
      .ok ({ status := "created", message := "Adapter created successfully",
             s3_path := m.s3AdapterPath, metadata := some meta }, s')
    | .error e => .error (.http 500 ("Failed to create adapter: " ++ e.str))

/-- Result dictionary of `delete_adapter`. -/
structure DeleteResult where
  status : String
  message : String
  deleted_objects : Nat
deriving DecidableEq, Repr

/-- `delete_adapter()`: list everything under the adapter prefix; if the
listing is empty raise 404 (which the method's own `except` handler wraps
into HTTP 500 `"Failed to delete adapter: …"`), else bulk-delete every
listed key. -/
def delete_adapter (m : AdapterPersistenceManager) (s : Store) :
    Except PErr (DeleteResult × Store) :=
  let objs := (listPrefix s m.s3AdapterPath).map Prod.fst
  if objs.isEmpty then
    .error (.http 500
      ("Failed to delete adapter: 404: No adapter found for user "
        ++ m.user_id ++ ", avatar " ++ m.avatar_id))
  else
    .ok ({ status := "success",
           message := "Adapter deleted for user " ++ m.user_id ++ ", avatar " ++ m.avatar_id,
           deleted_objects := objs.length },
         deleteKeys s objs)

/-- `_get_training_metadata()`: read `metadata/metadata.json`; any failure
(missing key, undecodable body) yields `{}`. -/
def getTrainingMetadata (m : AdapterPersistenceManager) (s : Store) :
    List (String × Bool) :=
  match storeGet s m.ledgerKey with
  | some (.ledgerDoc entries) => entries
  | _ => []

/-- `get_training_files_for_training()`: the filenames whose ledger flag is
true; any ledger-read failure already collapsed to `{}` above, so this
never raises. -/
def get_training_files_for_training (m : AdapterPersistenceManager) (s : Store) :
    List String :=
  ((m.getTrainingMetadata s).filter (fun p => p.2)).map Prod.fst

/-- One element of `list_training_files`' result.  The record projects the
fields the specification's claims mention (`filename`, `use_for_training`,
`s3_key`); the numeric size, timestamps and the best-effort per-object
content-type enrichment (always swallowed on failure) are omitted. -/
structure TrainingFileRecord where
  filename : String
  use_for_training : Bool
  s3_key : String
deriving DecidableEq, Repr

/-- `list_training_files(training_only)`: list the training-data prefix,
skip pseudo-directory keys (ending in `/`), join each object against the
ledger with default flag `false`, and apply the optional filter. -/
def list_training_files (m : AdapterPersistenceManager)
    (training_only : Option Bool) (s : Store) : List TrainingFileRecord :=
  let ledger := m.getTrainingMetadata s
  let objs := listPrefix s m.s3TrainingDataPath
  objs.filterMap (fun kv =>
    if strSuffix "/" kv.1 then none
    else
      let fn := basename kv.1
      let uft := (assocGet ledger fn).getD false
      let rec_ : TrainingFileRecord :=
        { filename := fn, use_for_training := uft, s3_key := kv.1 }
      match training_only with
      | none => some rec_
      | some true => if uft then some rec_ else none
      | some false => if uft then none else some rec_)

end AdapterPersistenceManager

/-! ## Training-flag API handler (api/training_data.py) -/

/-- Result dictionary of the `update_training_flag` route handler. -/
structure UpdateFlagResult where
  status : String
  message : String
  filename : String
  old_value : Bool
  new_value : Bool
deriving DecidableEq, Repr

/-- `update_training_flag(user_id, avatar_id, file_name, update)` from
`api/training_data.py`: first a `head_object` probe on
`training_data/{file_name}` — if it fails, an HTTP 404 is raised, which the
handler's own outer `except Exception` immediately catches and re-raises as
HTTP 500 `"Failed to update training flag: 404: …"`.  Only when the blob
exists does the handler read the ledger (default `{}`), record the previous
flag (default `false`), set the new flag and write the whole ledger back. -/
def update_training_flag (m : AdapterPersistenceManager) (file_name : String)
    (flag : Bool) (s : Store) : Except PErr (UpdateFlagResult × Store) :=
  if (storeGet s (m.s3TrainingDataPath ++ file_name)).isSome then
    let metadata := m.getTrainingMetadata s
    let old_value := (assocGet metadata file_name).getD false
    let metadata' := assocSet metadata file_name flag
    let s' := storePut s m.ledgerKey (.ledgerDoc metadata')
    .ok ({ status := "success",
           message := "Training flag updated for " ++ file_name,
           filename := file_name, old_value := old_value, new_value := flag }, s')
  else
    .error (.http 500
      ("Failed to update training flag: 404: Training data file "
        ++ file_name ++ " not found"))

/-! ## Training service (service/training_service.py) -/

/-- The attribute names `class AdapterPersistenceManager` actually defines
(the full method list of `classes/AdapterPersistenceManager.py`); Python
resolves `persistence_manager.<name>` against this set and raises
`AttributeError` when the name is absent. -/
def managerMethods : List String :=
  ["__init__", "_get_s3_adapter_path", "_get_s3_training_data_path",
   "_get_s3_metadata_path", "backup_adapters_to_s3", "backup_training_data_to_s3",
   "restore_adapters_from_s3", "restore_training_data_from_s3",
   "list_adapter_backups", "adapter_exists", "create_adapter", "get_adapter_info",
   "delete_adapter", "upload_training_file", "list_training_files",
   "get_training_files_for_training", "_get_training_metadata",
   "_update_training_metadata"]

/-- Attribute lookup on an `AdapterPersistenceManager` instance. -/
def managerHasMethod (n : String) : Bool :=
  managerMethods.contains n

/-- `TrainingService._get_training_files(training_data_path)` keeps the
files of the directory whose lower-cased name ends in
`.txt`, `.json`, `.jsonl` or `.csv`. -/
def trainableFile (name : String) : Bool :=
  strSuffix ".txt" (lowerStr name) || strSuffix ".json" (lowerStr name)
    || strSuffix ".jsonl" (lowerStr name) || strSuffix ".csv" (lowerStr name)

/-- `_get_training_files`: list the training directory, filter by extension. -/
def getLocalTrainingFiles (dir : Bundle) : List String :=
  (dir.filter (fun e => trainableFile e.1)).map Prod.fst

/-- `_update_adapter_post_training(adapter_path, …)`: if the bundle has an
`adapter_config.json`, rewrite it in place with `status = "trained"`, the
file list and the timing/metric fields (floats abstracted, see
`FileDoc.trainedConfig`); then overwrite `adapter_model.bin` with the
simulated trained-weight bytes (dummy JSON repeated in the source; the
exact filler is abstracted to a marker string). -/
def updateAdapterPostTraining (ad : Bundle) (files : List String) : Bundle :=
  let d1 :=
    match assocGet ad "adapter_config.json" with
    | some cfg => assocSet ad "adapter_config.json" (.trainedConfig cfg files)
    | none => ad
  assocSet d1 "adapter_model.bin" (.bytes "simulated trained weights")

/-- Result dictionary of `train_lora_adapter` (success flag, error and
message; the float duration/loss/metrics fields are outside the embedding). -/
structure TrainResult where
  success : Bool
  error : Option String
  message : String
deriving DecidableEq, Repr

/-- `TrainingService.train_lora_adapter(adapter_path, training_data_path,
training_params)`: validates that both paths exist, gathers extension-
filtered training files (raising `ValueError("No training files found")`
into the method's own `except`-branch when none match, which returns
`success=false`), otherwise runs the simulated training loop and the
post-training bundle update and returns `success=true`.  The simulated
metrics/loss values and wall-clock durations are floats and are omitted;
the raised `ValueError` messages carry the scratch paths in the source,
abstracted here.  Returns the result and the (possibly updated) adapter
directory. -/
def train_lora_adapter (adapterDir trainingDir : Option Bundle) :
    TrainResult × Option Bundle :=
  match adapterDir with
  | none => ({ success := false, error := some "Adapter path does not exist",
               message := "Training failed: Adapter path does not exist" }, none)
  | some ad =>
    match trainingDir with
    | none => ({ success := false, error := some "Training data path does not exist",
                 message := "Training failed: Training data path does not exist" }, some ad)
    | some td =>
      let files := getLocalTrainingFiles td
      if files.isEmpty then
        ({ success := false, error := some "No training files found",
           message := "Training failed: No training files found" }, some ad)
      else
        ({ success := true, error := none,
           message := "Training completed successfully" },
         some (updateAdapterPostTraining ad files))

/-- The persistence-manager operations `train_with_persistence_manager`
invokes on its duck-typed `persistence_manager` argument.  The bucket state
is threaded explicitly, mirroring the side effects of each call. -/
structure PersistenceOps where
  get_training_files_for_training : Store → List String
  restore_adapters_from_s3 : Store → Except PErr Bundle
  create_adapter : Store → Except PErr (AdapterPersistenceManager.CreateResult × Store)
  get_training_file_download_url : String → Store → Except PErr String
  backup_adapters_to_s3 : Bundle → Store → Except PErr (S3Doc × Store)

/-- Lines 129-139 of `service/training_service.py`: try to restore; on an
exception whose `str` contains `"404"`, create the adapter and retry the
restore once; any other exception propagates.  Returns the restored bundle
together with the bucket state reached so far (also on failure, since the
side effects of a completed `create_adapter` persist). -/
def restoreOrCreate (ops : PersistenceOps) (s : Store) :
    Except PErr Bundle × Store :=
  match ops.restore_adapters_from_s3 s with
  | .ok b => (.ok b, s)
  | .error e =>
    if strContains e.str "404" then
      match ops.create_adapter s with
      | .error e' => (.error e', s)
      | .ok (_, s1) =>
        match ops.restore_adapters_from_s3 s1 with
        | .ok b => (.ok b, s1)
        | .error e'' => (.error e'', s1)
    else (.error e, s)

/-- Observable outcome of one `train_with_persistence_manager` run: the
returned result dictionary (`success`, `error`, `message`,
`backup_metadata`), the final bucket state, and the run's trace —
whether `backup_adapters_to_s3` was called, whether the training procedure
(`train_lora_adapter`, step 4) was invoked, and what it reported. -/
structure TrainRunOutcome where
  success : Bool
  error : Option String
  message : String
  backup_metadata : Option S3Doc
  backupPerformed : Bool
  trainingInvoked : Bool
  procedureSucceeded : Option Bool
  store : Store
deriving DecidableEq, Repr

/-- Step 6 of `train_with_persistence_manager`: the backup call on the
success path — metadata attached on success; an exception from the backup
itself is caught by the outer handler (the call was still made). -/
def twpmAfterBackup (tr : TrainResult) (s1 : Store) :
    Except PErr (S3Doc × Store) → TrainRunOutcome
  | .ok (meta, s2) =>
    { success := true, error := none, message := tr.message,
      backup_metadata := some meta, backupPerformed := true,
      trainingInvoked := true, procedureSucceeded := some true, store := s2 }
  | .error e =>
    { success := false, error := some e.str,
      message := "Training failed: " ++ e.str, backup_metadata := none,
      backupPerformed := true, trainingInvoked := true,
      procedureSucceeded := some true, store := s1 }

/-- Steps 4-6 of `train_with_persistence_manager` (source lines 172-184):
given the training procedure's result, back the bundle up ONLY under
`if training_result["success"]`, attaching the backup metadata; a failure
result is returned as-is, with no backup call. -/
def twpmTrainAndBackup (ops : PersistenceOps) (b : Bundle) (s1 : Store) :
    TrainResult × Option Bundle → TrainRunOutcome
  | (tr, adapterDir') =>
    if tr.success then
      twpmAfterBackup tr s1 (ops.backup_adapters_to_s3 (adapterDir'.getD b) s1)
    else
      { success := tr.success, error := tr.error, message := tr.message,
        backup_metadata := none, backupPerformed := false,
        trainingInvoked := true, procedureSucceeded := some false, store := s1 }

/-- Steps 3-6 of `train_with_persistence_manager` (source lines 141-184),
entered with the outcome of the restore-or-create phase: a raised
restore/create exception is caught by the outer handler and rendered as a
failure dictionary; otherwise run the per-file downloads (each attempt
calls `persistence_manager.get_training_file_download_url`, failures are
logged and skipped, successes write the simulated body
`"Training data for {filename}"` into the scratch directory), abort with
the download failure when zero files were downloaded, else invoke the
training procedure and proceed to the backup step. -/
def twpmAfterRestore (ops : PersistenceOps) (training_files : List String) :
    Except PErr Bundle × Store → TrainRunOutcome
  | (.error e, s1) =>
    { success := false, error := some e.str,
      message := "Training failed: " ++ e.str, backup_metadata := none,
      backupPerformed := false, trainingInvoked := false,
      procedureSucceeded := none, store := s1 }
  | (.ok bundle, s1) =>
    let downloaded := training_files.filter
      (fun f => (ops.get_training_file_download_url f s1).toBool)
    if downloaded.isEmpty then
      { success := false, error := some "Failed to download any training files",
        message := "Could not access training data", backup_metadata := none,
        backupPerformed := false, trainingInvoked := false,
        procedureSucceeded := none, store := s1 }
    else
      twpmTrainAndBackup ops bundle s1 (train_lora_adapter (some bundle)
        (some (downloaded.map
          (fun f => (f, FileDoc.bytes ("Training data for " ++ f))))))

/-- `TrainingService.train_with_persistence_manager(persistence_manager,
training_params)` (`service/training_service.py`, lines 108-192):
1. `get_training_files_for_training`; empty ⇒ return the "No training data
   available" failure, no side effects.
2. restore-or-create the adapter bundle (`restoreOrCreate`).
3. per-file downloads via `persistence_manager.get_training_file_download_url`;
   a per-file exception is logged and the file skipped; each success writes
   the simulated body `"Training data for {filename}"` into the scratch
   training directory; zero downloads ⇒ return the "Failed to download any
   training files" failure.
4. invoke `train_lora_adapter` on the scratch directories.
5. only if the result dictionary has `success=true`, call
   `backup_adapters_to_s3` on the (post-training) bundle and attach the
   returned metadata; a failed training result is returned as-is, unbacked.
Any exception raised along the way is caught by the outer handler and
returned as a `success=false` dictionary built from `str(e)`. -/
def train_with_persistence_manager (ops : PersistenceOps) (s : Store) :
    TrainRunOutcome :=
  if (ops.get_training_files_for_training s).isEmpty then
    { success := false, error := some "No training files marked for training",
      message := "No training data available", backup_metadata := none,
      backupPerformed := false, trainingInvoked := false,
      procedureSucceeded := none, store := s }
  else
    twpmAfterRestore ops (ops.get_training_files_for_training s)
      (restoreOrCreate ops s)

/-- The `PersistenceOps` of an actual `AdapterPersistenceManager` instance
(the object every caller in the repository would construct via
`get_adapter_persistence_manager`): each field dispatches to the embedded
class method; `get_training_file_download_url` performs the attribute
lookup against `managerMethods` — the class defines no such method, so the
lookup raises `AttributeError`. -/
def realOps (m : AdapterPersistenceManager) (now : String) : PersistenceOps where
  get_training_files_for_training := fun s => m.get_training_files_for_training s
  restore_adapters_from_s3 := fun s => m.restore_adapters_from_s3 s
  create_adapter := fun s => m.create_adapter "default" now s
  get_training_file_download_url := fun f _ =>
    if managerHasMethod "get_training_file_download_url" then .ok f
    else .error (.attr "get_training_file_download_url")
  backup_adapters_to_s3 := fun d s => m.backup_adapters_to_s3 now (some d) s

/-! ## Supporting lemmas -/

namespace AdapterPersistenceManager

theorem backupMetaKey_ne_adapterZipKey (m : AdapterPersistenceManager) :
    m.backupMetaKey ≠ m.adapterZipKey :=
  append_ne_of_ne m.s3AdapterPath (by decide)

theorem ledgerKey_eq_append (m : AdapterPersistenceManager) :
    m.ledgerKey = m.s3AdapterPath ++ "metadata/metadata.json" := by
  show m.s3AdapterPath ++ "metadata/" ++ "metadata.json" = _
  rw [String.append_assoc]
  rfl

theorem trainingDataPath_prefix (m : AdapterPersistenceManager) (k : String)
    (h : strPrefix m.s3TrainingDataPath k = true) :
    strPrefix m.s3AdapterPath k = true :=
  strPrefix_of_append m.s3AdapterPath "training_data/" k h

/-- After a backup, the archive object at the fixed key is the zipped bundle
(the sibling metadata write does not clobber it). -/
theorem storeGet_after_backup (m : AdapterPersistenceManager) (now : String)
    (D : Bundle) (s : Store) :
    storeGet
      (storePut (storePut s m.adapterZipKey (.zipArchive D)) m.backupMetaKey
        (.backupMeta "adapters" m.user_id m.avatar_id now D.length))
      m.adapterZipKey = some (.zipArchive D) := by
  show assocGet (assocSet (assocSet s _ _) _ _) _ = _
  rw [assocGet_set_ne _ _ _ _ m.backupMetaKey_ne_adapterZipKey, assocGet_set_self]

end AdapterPersistenceManager

/-- `str(HTTPException(404, d))` starts with `"404"`, so the orchestrator's
`"404" in str(e)` test is true for it. -/
theorem strContains_http404 (d : String) :
    strContains (PErr.str (.http 404 d)) "404" = true := by
  have : PErr.str (.http 404 d) = "404" ++ (": " ++ d) := by
    show (toString (404 : Nat) ++ ": ") ++ d = _
    rw [String.append_assoc]
    rfl
  rw [this]
  exact strContains_append_left _ _

/-- Attribute lookup for `get_training_file_download_url` fails on
`AdapterPersistenceManager`: the class defines no method of that name. -/
theorem downloadLookupFails (m : AdapterPersistenceManager) (now : String)
    (f : String) (s : Store) :
    (realOps m now).get_training_file_download_url f s =
      .error (.attr "get_training_file_download_url") := by
  have hm : managerHasMethod "get_training_file_download_url" = false := by decide
  simp [realOps, hm]

/-- When the restore-or-create phase yields a bundle and every per-file
download-URL request fails, the run aborts with the download failure. -/
theorem twpm_no_downloads (ops : PersistenceOps) (s : Store) (b : Bundle)
    (s1 : Store) (hne : ops.get_training_files_for_training s ≠ [])
    (hrc : restoreOrCreate ops s = (.ok b, s1))
    (hdl : ∀ f, (ops.get_training_file_download_url f s1).toBool = false) :
    train_with_persistence_manager ops s =
      { success := false, error := some "Failed to download any training files",
        message := "Could not access training data", backup_metadata := none,
        backupPerformed := false, trainingInvoked := false,
        procedureSucceeded := none, store := s1 } := by
  unfold train_with_persistence_manager
  have hemp : (ops.get_training_files_for_training s).isEmpty = false := by
    cases hl : ops.get_training_files_for_training s with
    | nil => exact absurd hl hne
    | cons a l => simp [List.isEmpty]
  rw [if_neg (by simp [hemp]), hrc]
  have hfilt : (ops.get_training_files_for_training s).filter
      (fun f => (ops.get_training_file_download_url f s1).toBool) = [] :=
    List.filter_eq_nil_iff.mpr (fun f _ => by simp [hdl f])
  simp only [twpmAfterRestore, hfilt]
  rfl

/-- With no archive object at the fixed key, restore raises HTTP 404. -/
theorem restore_when_absent (m : AdapterPersistenceManager) (s : Store)
    (h : storeGet s m.adapterZipKey = none) :
    m.restore_adapters_from_s3 s =
      .error (.http 404 ("No adapter backup found for user " ++ m.user_id
        ++ ", avatar " ++ m.avatar_id)) := by
  unfold AdapterPersistenceManager.restore_adapters_from_s3
  rw [h]

/-- With no adapter present, `create_adapter` takes the creation path and
uploads the archived fresh bundle plus its metadata document. -/
theorem create_adapter_when_absent (m : AdapterPersistenceManager)
    (n t : String) (s : Store) (h : m.adapter_exists s = false) :
    m.create_adapter n t s =
      .ok ({ status := "created", message := "Adapter created successfully",
             s3_path := m.s3AdapterPath,
             metadata := some (.backupMeta "adapters" m.user_id m.avatar_id t
               (m.createAdapterBundle n t).length) },
           storePut (storePut s m.adapterZipKey
             (.zipArchive (m.createAdapterBundle n t))) m.backupMetaKey
             (.backupMeta "adapters" m.user_id m.avatar_id t
               (m.createAdapterBundle n t).length)) := by
  unfold AdapterPersistenceManager.create_adapter
    AdapterPersistenceManager.backup_adapters_to_s3
  rw [if_neg (by simp [h])]

/-! ## Concrete fixtures used by witnesses and counterexamples -/

/-- A concrete manager (`user_id = "u1"`, `avatar_id = "a1"`). -/
def mgrW : AdapterPersistenceManager := ⟨"u1", "a1"⟩

/-- The bundle `create_adapter` materializes (config overwritten by the
LoRA placeholder, empty weights). -/
def bundleW : Bundle :=
  [("adapter_config.json", .loraDoc ["q_proj", "v_proj"] 16 32 "0.1"),
   ("adapter_model.bin", .bytes "")]

/-- Bucket holding a backed-up adapter plus a ledger flagging
`voice.bin` for training. -/
def storeTrainW : Store :=
  [(mgrW.adapterZipKey, .zipArchive bundleW),
   (mgrW.ledgerKey, .ledgerDoc [("voice.bin", true)])]

/-- Bucket holding only a ledger that flags `voice.bin` for training
(no adapter backup object). -/
def storeLedgerW : Store :=
  [(mgrW.ledgerKey, .ledgerDoc [("voice.bin", true)])]

/-! ## Claims -/

/-- C2: `create_adapter` is idempotent — after any successful call, a second
call (with any adapter name and timestamp) returns `status="existing"` and
leaves the bucket, in particular the stored archive's content, unchanged. -/
theorem create_adapter_idempotent (m : AdapterPersistenceManager)
    (n t n' t' : String) (s : Store) (r1 : AdapterPersistenceManager.CreateResult)
    (s1 : Store) (h : m.create_adapter n t s = .ok (r1, s1)) :
    m.create_adapter n' t' s1 =
      .ok ({ status := "existing", message := "Adapter already exists",
             s3_path := m.s3AdapterPath, metadata := none }, s1) := by
  by_cases he : m.adapter_exists s
  · unfold AdapterPersistenceManager.create_adapter at h
    rw [if_pos he] at h
    have hs1 : s1 = s := by
      injection h with h'
      injection h' with _ h2
      exact h2.symm
    unfold AdapterPersistenceManager.create_adapter
    rw [hs1, if_pos he]
  · unfold AdapterPersistenceManager.create_adapter
      AdapterPersistenceManager.backup_adapters_to_s3 at h
    rw [if_neg he] at h
    simp only at h
    have hs1 : s1 = storePut (storePut s m.adapterZipKey
        (.zipArchive (m.createAdapterBundle n t))) m.backupMetaKey
        (.backupMeta "adapters" m.user_id m.avatar_id t
          (m.createAdapterBundle n t).length) := by
      injection h with h'
      injection h' with _ h2
      exact h2.symm
    have hex : m.adapter_exists s1 = true := by
      rw [hs1]
      unfold AdapterPersistenceManager.adapter_exists
      rw [AdapterPersistenceManager.storeGet_after_backup]
      rfl
    unfold AdapterPersistenceManager.create_adapter
    rw [if_pos hex]

/-- C2 witness: a first call on the empty bucket creates the adapter; the
theorem then gives `status="existing"` and an unchanged bucket on the
second call. -/
theorem create_adapter_idempotent_witness :
    mgrW.create_adapter "default" "t1" (storePut (storePut ([] : Store)
        mgrW.adapterZipKey (.zipArchive bundleW)) mgrW.backupMetaKey
        (.backupMeta "adapters" "u1" "a1" "t0" 2)) =
      .ok ({ status := "existing", message := "Adapter already exists",
             s3_path := mgrW.s3AdapterPath, metadata := none },
           storePut (storePut ([] : Store) mgrW.adapterZipKey
             (.zipArchive bundleW)) mgrW.backupMetaKey
             (.backupMeta "adapters" "u1" "a1" "t0" 2)) :=
  create_adapter_idempotent mgrW "default" "t0" "default" "t1" []
    { status := "created", message := "Adapter created successfully",
      s3_path := mgrW.s3AdapterPath,
      metadata := some (.backupMeta "adapters" "u1" "a1" "t0" 2) }
    _ (by decide)

/-- C3: backup followed by restore is the identity on bundle contents — for
any bundle `D` present locally, `backup_adapters_to_s3` succeeds, and
`restore_adapters_from_s3` on the resulting bucket extracts into an empty
scratch directory exactly `D`'s relative paths and contents. -/
theorem backup_then_restore_identity (m : AdapterPersistenceManager)
    (now : String) (D : Bundle) (s : Store) :
    ∃ meta s', m.backup_adapters_to_s3 now (some D) s = .ok (meta, s') ∧
      m.restore_adapters_from_s3 s' = .ok D := by
  refine ⟨_, _, rfl, ?_⟩
  unfold AdapterPersistenceManager.restore_adapters_from_s3
  rw [AdapterPersistenceManager.storeGet_after_backup]

/-- C7: with no backup object stored for the avatar,
`restore_adapters_from_s3` fails with the HTTP 404 NotFound condition and in
particular never succeeds (with an empty directory or otherwise). -/
theorem restore_missing_not_found (m : AdapterPersistenceManager) (s : Store)
    (h : storeGet s m.adapterZipKey = none) :
    m.restore_adapters_from_s3 s =
      .error (.http 404 ("No adapter backup found for user " ++ m.user_id
        ++ ", avatar " ++ m.avatar_id)) ∧
    ∀ b : Bundle, m.restore_adapters_from_s3 s ≠ .ok b := by
  have h1 : m.restore_adapters_from_s3 s = .error (.http 404
      ("No adapter backup found for user " ++ m.user_id
        ++ ", avatar " ++ m.avatar_id)) := by
    unfold AdapterPersistenceManager.restore_adapters_from_s3
    rw [h]
  exact ⟨h1, fun b hb => by rw [h1] at hb; exact Except.noConfusion hb⟩

/-- C7 witness: the empty bucket has no backup for `mgrW`; restore fails
with the 404 condition and does not return the empty bundle. -/
theorem restore_missing_not_found_witness :
    mgrW.restore_adapters_from_s3 [] =
      .error (.http 404 "No adapter backup found for user u1, avatar a1") ∧
    mgrW.restore_adapters_from_s3 [] ≠ .ok [] :=
  ⟨(restore_missing_not_found mgrW [] (by decide)).1,
   (restore_missing_not_found mgrW [] (by decide)).2 []⟩

/-- C10: on the creation path, the archived bundle maps
`adapter_config.json` to the LoRA hyperparameter document only — the status
document (`adapter_name`, owner ids, `created_at`, `version`, `status`,
`training_history`) written first is overwritten by the placeholder write
to the same filename before archiving, so no file of a freshly created
backup carries a `status` or `training_history` field. -/
theorem create_adapter_bundle_lora_only (m : AdapterPersistenceManager)
    (n t : String) (s : Store) (h : m.adapter_exists s = false) :
    m.create_adapter n t s =
      .ok ({ status := "created", message := "Adapter created successfully",
             s3_path := m.s3AdapterPath,
             metadata := some (.backupMeta "adapters" m.user_id m.avatar_id t 2) },
           storePut (storePut s m.adapterZipKey
             (.zipArchive (m.createAdapterBundle n t))) m.backupMetaKey
             (.backupMeta "adapters" m.user_id m.avatar_id t 2)) ∧
    m.createAdapterBundle n t =
      [("adapter_config.json", .loraDoc ["q_proj", "v_proj"] 16 32 "0.1"),
       ("adapter_model.bin", .bytes "")] ∧
    ∀ e ∈ m.createAdapterBundle n t,
      e.2.hasStatusField = false ∧ e.2.hasTrainingHistoryField = false := by
  have hb : m.createAdapterBundle n t =
      [("adapter_config.json", .loraDoc ["q_proj", "v_proj"] 16 32 "0.1"),
       ("adapter_model.bin", .bytes "")] := rfl
  refine ⟨?_, hb, ?_⟩
  · unfold AdapterPersistenceManager.create_adapter
      AdapterPersistenceManager.backup_adapters_to_s3
    rw [if_neg (by simp [h])]
    simp only [hb]
    rfl
  · rw [hb]
    intro e he
    rcases List.mem_cons.1 he with h1 | h1
    · rw [h1]; exact ⟨rfl, rfl⟩
    · rcases List.mem_cons.1 h1 with h2 | h2
      · rw [h2]; exact ⟨rfl, rfl⟩
      · simp at h2

/-- C10 witness: creating on the empty bucket stores the two-entry bundle,
and its config entry (the LoRA document) carries no status field. -/
theorem create_adapter_bundle_lora_only_witness :
    mgrW.create_adapter "default" "t0" [] =
      .ok ({ status := "created", message := "Adapter created successfully",
             s3_path := mgrW.s3AdapterPath,
             metadata := some (.backupMeta "adapters" "u1" "a1" "t0" 2) },
           storePut (storePut ([] : Store) mgrW.adapterZipKey
             (.zipArchive (mgrW.createAdapterBundle "default" "t0")))
             mgrW.backupMetaKey (.backupMeta "adapters" "u1" "a1" "t0" 2)) ∧
    FileDoc.hasStatusField (.loraDoc ["q_proj", "v_proj"] 16 32 "0.1") = false :=
  ⟨(create_adapter_bundle_lora_only mgrW "default" "t0" [] (by decide)).1,
   ((create_adapter_bundle_lora_only mgrW "default" "t0" [] (by decide)).2.2
     ("adapter_config.json", .loraDoc ["q_proj", "v_proj"] 16 32 "0.1")
     (by decide)).1⟩

/-- C4: a successful `delete_adapter` removes every object under the
adapter prefix — which covers the `training_data/` and `metadata/`
subpaths — so no key with the adapter prefix survives and a subsequent
`list_training_files` (under any filter) returns the empty list. -/
theorem delete_adapter_scope (m : AdapterPersistenceManager) (s : Store)
    (res : AdapterPersistenceManager.DeleteResult) (s' : Store)
    (h : m.delete_adapter s = .ok (res, s')) :
    (∀ k, strPrefix m.s3AdapterPath k = true → storeGet s' k = none) ∧
    (∀ q : Option Bool, m.list_training_files q s' = []) := by
  have hs' : s' = deleteKeys s ((listPrefix s m.s3AdapterPath).map Prod.fst) := by
    unfold AdapterPersistenceManager.delete_adapter at h
    by_cases he : ((listPrefix s m.s3AdapterPath).map Prod.fst).isEmpty
    · rw [if_pos he] at h
      exact Except.noConfusion h
    · rw [if_neg he] at h
      injection h with h'
      injection h' with _ h2
      exact h2.symm
  have hgone : ∀ k, strPrefix m.s3AdapterPath k = true → storeGet s' k = none := by
    intro k hk
    cases hget : storeGet s' k with
    | none => rfl
    | some v =>
      exfalso
      have hmem : (k, v) ∈ s' := assocGet_eq_some_mem hget
      rw [hs'] at hmem
      have hfil := List.mem_filter.1 hmem
      have hin : (k, v) ∈ s := hfil.1
      have hnot := hfil.2
      have hlisted : (k, v) ∈ listPrefix s m.s3AdapterPath :=
        List.mem_filter.2 ⟨hin, hk⟩
      have hkmem : k ∈ (listPrefix s m.s3AdapterPath).map Prod.fst :=
        List.mem_map.2 ⟨(k, v), hlisted, rfl⟩
      simp [hkmem] at hnot
  refine ⟨hgone, ?_⟩
  intro q
  have hlist : listPrefix s' m.s3TrainingDataPath = [] := by
    apply List.filter_eq_nil_iff.mpr
    intro kv hkv
    intro hpre
    have hk2 : strPrefix m.s3AdapterPath kv.1 = true :=
      m.trainingDataPath_prefix kv.1 hpre
    have := hgone kv.1 hk2
    exact absurd this (by
      intro hnone
      exact absurd hkv ((fun v => assocGet_none_not_mem hnone v) kv.2 ∘ (by
        intro hm; exact hm)) )
  unfold AdapterPersistenceManager.list_training_files
  rw [hlist]
  rfl

/-- C4 witness: deleting the adapter of a bucket holding a backup, a ledger
and a stored training blob wipes the whole prefix; the ledger key is gone
and the listing is empty. -/
theorem delete_adapter_scope_witness :
    mgrW.delete_adapter
      [(mgrW.adapterZipKey, .zipArchive bundleW),
       (mgrW.ledgerKey, .ledgerDoc [("voice.bin", true)]),
       (mgrW.s3TrainingDataPath ++ "voice.bin", .file (.bytes "hi"))] =
      .ok ({ status := "success",
             message := "Adapter deleted for user u1, avatar a1",
             deleted_objects := 3 }, []) ∧
    storeGet ([] : Store) mgrW.ledgerKey = none ∧
    mgrW.list_training_files none [] = [] := by
  have h : mgrW.delete_adapter
      [(mgrW.adapterZipKey, .zipArchive bundleW),
       (mgrW.ledgerKey, .ledgerDoc [("voice.bin", true)]),
       (mgrW.s3TrainingDataPath ++ "voice.bin", .file (.bytes "hi"))] =
      .ok ({ status := "success",
             message := "Adapter deleted for user u1, avatar a1",
             deleted_objects := 3 }, []) := by decide
  exact ⟨h, (delete_adapter_scope mgrW _ _ _ h).1 mgrW.ledgerKey (by decide),
         (delete_adapter_scope mgrW _ _ _ h).2 none⟩

/-- C5: absence of a ledger entry is equivalent to a false flag — any stored
blob whose filename never reached the ledger is reported by
`list_training_files` with `use_for_training = false`, and
`get_training_files_for_training` excludes that filename. -/
theorem ledger_absent_means_false (m : AdapterPersistenceManager) (s : Store)
    (fn : String) (h : assocGet (m.getTrainingMetadata s) fn = none) :
    (∀ r ∈ m.list_training_files none s,
      r.filename = fn → r.use_for_training = false) ∧
    fn ∉ m.get_training_files_for_training s := by
  constructor
  · intro r hr hfn
    unfold AdapterPersistenceManager.list_training_files at hr
    rcases List.mem_filterMap.1 hr with ⟨kv, _, heq⟩
    by_cases hd : strSuffix "/" kv.1 = true
    · rw [if_pos hd] at heq
      exact Option.noConfusion heq
    · rw [if_neg hd] at heq
      simp only [Option.some.injEq] at heq
      have hfields : r.filename = basename kv.1 ∧
          r.use_for_training = (assocGet (m.getTrainingMetadata s)
            (basename kv.1)).getD false := by
        rw [← heq]
        exact ⟨rfl, rfl⟩
      rw [hfields.2, ← hfields.1, hfn, h]
      rfl
  · intro hmem
    unfold AdapterPersistenceManager.get_training_files_for_training at hmem
    rcases List.mem_map.1 hmem with ⟨p, hp, hfst⟩
    have hfil := List.mem_filter.1 hp
    have : (fn, p.2) ∈ m.getTrainingMetadata s := by
      have : p = (fn, p.2) := by
        rw [← hfst]
      rw [← this]
      exact hfil.1
    exact assocGet_none_not_mem h p.2 this

/-- C5 witness: a bucket stores the blob `orphan.txt` under the
training-data prefix with no ledger at all; its listing record carries
`use_for_training = false` and the training projection excludes it. -/
theorem ledger_absent_means_false_witness :
    ({ filename := "orphan.txt", use_for_training := false,
       s3_key := mgrW.s3TrainingDataPath ++ "orphan.txt" } :
        AdapterPersistenceManager.TrainingFileRecord) ∈
      mgrW.list_training_files none
        [(mgrW.s3TrainingDataPath ++ "orphan.txt", .file (.bytes "x"))] ∧
    ({ filename := "orphan.txt", use_for_training := false,
       s3_key := mgrW.s3TrainingDataPath ++ "orphan.txt" } :
        AdapterPersistenceManager.TrainingFileRecord).use_for_training = false ∧
    "orphan.txt" ∉ mgrW.get_training_files_for_training
      [(mgrW.s3TrainingDataPath ++ "orphan.txt", .file (.bytes "x"))] := by
  refine ⟨by decide, ?_, ?_⟩
  · exact (ledger_absent_means_false mgrW
      [(mgrW.s3TrainingDataPath ++ "orphan.txt", .file (.bytes "x"))]
      "orphan.txt" (by decide)).1 _ (by decide) (by decide)
  · exact (ledger_absent_means_false mgrW
      [(mgrW.s3TrainingDataPath ++ "orphan.txt", .file (.bytes "x"))]
      "orphan.txt" (by decide)).2

/-- C8 counterexample: the route handler `update_training_flag` of
`api/training_data.py` DOES verify that the underlying blob exists — for a
filename with a ledger entry but no stored blob it fails (the head probe's
404 is caught by the handler's own `except` and re-raised as HTTP 500)
instead of updating the flag. -/
theorem update_training_flag_missing_blob_fails :
    update_training_flag mgrW "ghost.txt" true
      [(mgrW.ledgerKey, .ledgerDoc [("ghost.txt", false)])] =
      .error (.http 500
        "Failed to update training flag: 404: Training data file ghost.txt not found") := by
  decide

/-- C8 (amended): `update_training_flag` first probes the blob under
`training_data/{filename}`; when present it performs the full ledger
read-modify-write — previous value recorded with default false, new value
set, whole ledger written back; when the blob is absent it fails with the
wrapped NotFound error rather than updating the flag. -/
theorem update_training_flag_spec (m : AdapterPersistenceManager)
    (fn : String) (flag : Bool) (s : Store) :
    ((storeGet s (m.s3TrainingDataPath ++ fn)).isSome = true →
      update_training_flag m fn flag s =
        .ok ({ status := "success",
               message := "Training flag updated for " ++ fn,
               filename := fn,
               old_value := (assocGet (m.getTrainingMetadata s) fn).getD false,
               new_value := flag },
             storePut s m.ledgerKey
               (.ledgerDoc (assocSet (m.getTrainingMetadata s) fn flag)))) ∧
    ((storeGet s (m.s3TrainingDataPath ++ fn)).isSome = false →
      update_training_flag m fn flag s =
        .error (.http 500 ("Failed to update training flag: 404: Training data file "
          ++ fn ++ " not found"))) := by
  constructor
  · intro hpresent
    unfold update_training_flag
    rw [if_pos hpresent]
  · intro habsent
    unfold update_training_flag
    rw [if_neg (by simp [habsent])]

/-- C8 witness: both branches of the amended claim at concrete buckets —
with the blob stored the flag flips and records `old_value = false`;
without it the handler fails. -/
theorem update_training_flag_spec_witness :
    update_training_flag mgrW "a.txt" true
      [(mgrW.s3TrainingDataPath ++ "a.txt", .file (.bytes "x"))] =
      .ok ({ status := "success", message := "Training flag updated for a.txt",
             filename := "a.txt", old_value := false, new_value := true },
           storePut [(mgrW.s3TrainingDataPath ++ "a.txt", .file (.bytes "x"))]
             mgrW.ledgerKey (.ledgerDoc [("a.txt", true)])) ∧
    update_training_flag mgrW "a.txt" true [] =
      .error (.http 500
        "Failed to update training flag: 404: Training data file a.txt not found") :=
  ⟨(update_training_flag_spec mgrW "a.txt" true
      [(mgrW.s3TrainingDataPath ++ "a.txt", .file (.bytes "x"))]).1 (by decide),
   (update_training_flag_spec mgrW "a.txt" true []).2 (by decide)⟩

/-- C6: on an avatar whose ledger has zero `use_for_training=true` entries,
`train_with_persistence_manager` terminates at step 1 with `success=false`
and the "No training data available" message, performs no backup and
leaves the bucket untouched. -/
theorem train_no_flagged_files (m : AdapterPersistenceManager) (now : String)
    (s : Store) (h : ∀ p ∈ m.getTrainingMetadata s, p.2 = false) :
    train_with_persistence_manager (realOps m now) s =
      { success := false, error := some "No training files marked for training",
        message := "No training data available", backup_metadata := none,
        backupPerformed := false, trainingInvoked := false,
        procedureSucceeded := none, store := s } := by
  have hempty : (realOps m now).get_training_files_for_training s = [] := by
    show m.get_training_files_for_training s = []
    unfold AdapterPersistenceManager.get_training_files_for_training
    rw [List.filter_eq_nil_iff.mpr (fun p hp => by simp [h p hp])]
    rfl
  unfold train_with_persistence_manager
  rw [hempty]
  rfl

/-- C6 witness: a ledger whose single entry is flagged false triggers the
no-training-data result with the bucket unchanged. -/
theorem train_no_flagged_files_witness :
    train_with_persistence_manager (realOps mgrW "t0")
      [(mgrW.ledgerKey, .ledgerDoc [("a.txt", false)])] =
      { success := false, error := some "No training files marked for training",
        message := "No training data available", backup_metadata := none,
        backupPerformed := false, trainingInvoked := false,
        procedureSucceeded := none,
        store := [(mgrW.ledgerKey, .ledgerDoc [("a.txt", false)])] } :=
  train_no_flagged_files mgrW "t0" [(mgrW.ledgerKey, .ledgerDoc [("a.txt", false)])]
    (by decide)

/-- C9: against the actual `AdapterPersistenceManager` — which defines no
`get_training_file_download_url` method — every per-file download attempt
of `train_with_persistence_manager` raises `AttributeError`, is caught and
skipped; so on any state with a non-empty flagged file list (and a
well-formed archive slot: absent, or holding an archive) the run returns
`success=false` with error "Failed to download any training files", and the
training procedure itself is never invoked. -/
theorem train_real_manager_never_downloads (m : AdapterPersistenceManager)
    (now : String) (s : Store)
    (h1 : m.get_training_files_for_training s ≠ [])
    (h2 : storeGet s m.adapterZipKey = none ∨
      ∃ b : Bundle, storeGet s m.adapterZipKey = some (.zipArchive b)) :
    (train_with_persistence_manager (realOps m now) s).success = false ∧
    (train_with_persistence_manager (realOps m now) s).error =
      some "Failed to download any training files" ∧
    (train_with_persistence_manager (realOps m now) s).trainingInvoked = false := by
  have hdl : ∀ (f : String) (s' : Store),
      ((realOps m now).get_training_file_download_url f s').toBool = false := by
    intro f s'
    rw [downloadLookupFails]
    rfl
  have hrc : ∃ b s1, restoreOrCreate (realOps m now) s = (.ok b, s1) := by
    rcases h2 with hnone | ⟨b, hzip⟩
    · have hres : (realOps m now).restore_adapters_from_s3 s =
          .error (.http 404 ("No adapter backup found for user " ++ m.user_id
            ++ ", avatar " ++ m.avatar_id)) := restore_when_absent m s hnone
      have hexists : m.adapter_exists s = false := by
        unfold AdapterPersistenceManager.adapter_exists
        rw [hnone]
        rfl
      have hcreate : (realOps m now).create_adapter s =
          m.create_adapter "default" now s := rfl
      have hres2 : m.restore_adapters_from_s3
          (storePut (storePut s m.adapterZipKey
            (.zipArchive (m.createAdapterBundle "default" now))) m.backupMetaKey
            (.backupMeta "adapters" m.user_id m.avatar_id now
              (m.createAdapterBundle "default" now).length)) =
          .ok (m.createAdapterBundle "default" now) := by
        unfold AdapterPersistenceManager.restore_adapters_from_s3
        rw [AdapterPersistenceManager.storeGet_after_backup]
      refine ⟨m.createAdapterBundle "default" now,
        storePut (storePut s m.adapterZipKey
          (.zipArchive (m.createAdapterBundle "default" now))) m.backupMetaKey
          (.backupMeta "adapters" m.user_id m.avatar_id now
            (m.createAdapterBundle "default" now).length), ?_⟩
      have hfield : ∀ s', (realOps m now).restore_adapters_from_s3 s' =
          m.restore_adapters_from_s3 s' := fun _ => rfl
      unfold restoreOrCreate
      simp only [hres, strContains_http404, if_true, hcreate,
        create_adapter_when_absent m "default" now s hexists, hfield, hres2]
    · have hres : (realOps m now).restore_adapters_from_s3 s = .ok b := by
        show m.restore_adapters_from_s3 s = .ok b
        unfold AdapterPersistenceManager.restore_adapters_from_s3
        rw [hzip]
      refine ⟨b, s, ?_⟩
      unfold restoreOrCreate
      rw [hres]
  rcases hrc with ⟨b, s1, hrc⟩
  rw [twpm_no_downloads (realOps m now) s b s1 h1 hrc (fun f => hdl f s1)]
  exact ⟨rfl, rfl, rfl⟩

/-- C9 witness: a bucket with one flagged file and no adapter backup — the
run fails with the download error without invoking training. -/
theorem train_real_manager_never_downloads_witness :
    (train_with_persistence_manager (realOps mgrW "t0") storeLedgerW).success = false ∧
    (train_with_persistence_manager (realOps mgrW "t0") storeLedgerW).error =
      some "Failed to download any training files" ∧
    (train_with_persistence_manager (realOps mgrW "t0") storeLedgerW).trainingInvoked
      = false :=
  train_real_manager_never_downloads mgrW "t0" storeLedgerW (by decide)
    (Or.inl (by decide))

/-- A persistence manager honouring the §4.1 contract assumed by the
orchestrator's step 3: identical to the actual `AdapterPersistenceManager`
operations except that the per-file download-URL request it is duck-typed
against succeeds (the class itself lacks the method, see C9). -/
def specOpsW : PersistenceOps :=
  { realOps mgrW "t0" with get_training_file_download_url := fun f _ => .ok f }

/-- C1 counterexample: a run of `train_with_persistence_manager` in which
the training procedure (step 4) IS invoked and reports failure — the
flagged file `voice.bin` downloads but is filtered out by the trainer's
text-extension check — performs NO backup: the backup call is guarded by
`if training_result["success"]`, not executed "regardless of the outcome". -/
theorem train_failed_run_not_backed_up :
    (train_with_persistence_manager specOpsW storeTrainW).trainingInvoked = true ∧
    (train_with_persistence_manager specOpsW storeTrainW).procedureSucceeded =
      some false ∧
    (train_with_persistence_manager specOpsW storeTrainW).backupPerformed = false ∧
    (train_with_persistence_manager specOpsW storeTrainW).store = storeTrainW := by
  exact ⟨rfl, rfl, rfl, rfl⟩

/-- C1 (amended): in every run of `train_with_persistence_manager`, with
any persistence manager, `backup_adapters_to_s3` is called after the
training procedure iff the procedure was invoked and reported success; a
failed training attempt is returned as a failure record without being
backed up (training failures are still never thrown — but their bundle is
not persisted). -/
theorem train_backup_iff_procedure_success (ops : PersistenceOps) (s : Store) :
    (train_with_persistence_manager ops s).backupPerformed = true ↔
    (train_with_persistence_manager ops s).procedureSucceeded = some true := by
  unfold train_with_persistence_manager
  by_cases h0 : (ops.get_training_files_for_training s).isEmpty
  · rw [if_pos h0]
    simp
  · rw [if_neg h0]
    rcases hrc : restoreOrCreate ops s with ⟨rc, s1⟩
    cases rc with
    | error e => simp [twpmAfterRestore]
    | ok b =>
      simp only [twpmAfterRestore]
      by_cases h1 : ((ops.get_training_files_for_training s).filter
          (fun f => (ops.get_training_file_download_url f s1).toBool)).isEmpty
      · rw [if_pos h1]
        simp
      · rw [if_neg h1]
        rcases htr : train_lora_adapter (some b)
            (some (((ops.get_training_files_for_training s).filter
              (fun f => (ops.get_training_file_download_url f s1).toBool)).map
              (fun f => (f, FileDoc.bytes ("Training data for " ++ f))))) with ⟨tr, ad⟩
        simp only [twpmTrainAndBackup]
        by_cases h2 : tr.success
        · rw [if_pos h2]
          rcases hb : ops.backup_adapters_to_s3 (ad.getD b) s1 with e2 | ⟨meta, s2⟩
          · simp [twpmAfterBackup]
          · simp [twpmAfterBackup]
        · rw [if_neg h2]
          simp [h2]
